import Mathlib

/-!
Verification of the `go-auth0` management client.

Part 1: the `HookSecrets` set arithmetic (`difference` / `intersection`)
used by the Hook secrets update flow.  The implementation lives in
`management/hook.go`, which is not part of the sources at hand (only its
test file is), so the operations are modelled from the specification and
checked against the concrete vectors of `TestHookSecretsDifference` and
`TestHookSecretsIntersection`.

Part 2 (further below): the Guardian managers of `management/guardian.go`.
-/

/-- Modelled from the spec: `HookSecrets` (declared in `management/hook.go`,
not among the sources at hand) is a mapping from string key to string value,
keys unique, insertion order irrelevant.  It is embedded as an association
list of key/value pairs; all statements below are insensitive to entry
order. -/
abbrev HookSecrets : Type := List (String × String)

/-- The empty `HookSecrets` mapping (`HookSecrets{}` in Go). -/
def HookSecrets.empty : HookSecrets := []

/-- Key membership test: `_, ok := s[k]` on the Go map. -/
def HookSecrets.hasKey : HookSecrets → String → Bool
  | [], _ => false
  | kv :: t, k => kv.1 == k || HookSecrets.hasKey t k

/-- Value of the mapping at a key: `s[k]` on the Go map (`none` when the key
is absent). -/
def HookSecrets.lookup : HookSecrets → String → Option String
  | [], _ => none
  | kv :: t, k => if kv.1 == k then some kv.2 else HookSecrets.lookup t k

/-- Modelled from the spec: `difference(A, B)` returns the sub-mapping of `A`
containing exactly the keys present in `A` but absent from `B`, values taken
from `A` (method `HookSecrets.difference` of `management/hook.go`, not among
the sources at hand). -/
def HookSecrets.difference (s other : HookSecrets) : HookSecrets :=
  s.filter (fun kv => !(other.hasKey kv.1))

/-- Modelled from the spec: `intersection(A, B)` returns the sub-mapping of
`A` containing exactly the keys present in both `A` and `B`, values taken
from `A` (method `HookSecrets.intersection` of `management/hook.go`, not
among the sources at hand). -/
def HookSecrets.intersection (s other : HookSecrets) : HookSecrets :=
  s.filter (fun kv => other.hasKey kv.1)

/-- First concrete vector of `TestHookSecretsDifference`. -/
theorem hookSecrets_difference_testVector₁ :
    HookSecrets.difference [("foo", ""), ("bar", "")] [("bar", "")] =
      [("foo", "")] := by
  decide

/-- Second concrete vector of `TestHookSecretsDifference`. -/
theorem hookSecrets_difference_testVector₂ :
    HookSecrets.difference [("foo", ""), ("bar", ""), ("baz", "")] [("bar", "")] =
      [("foo", ""), ("baz", "")] := by
  decide

/-- First concrete vector of `TestHookSecretsIntersection`. -/
theorem hookSecrets_intersection_testVector₁ :
    HookSecrets.intersection [("foo", ""), ("bar", "")] [("bar", "")] =
      [("bar", "")] := by
  decide

/-- Second concrete vector of `TestHookSecretsIntersection`. -/
theorem hookSecrets_intersection_testVector₂ :
    HookSecrets.intersection [("foo", ""), ("bar", ""), ("baz", "")] [("bar", "")] =
      [("bar", "")] := by
  decide

/-- Peeling one entry off the first argument of `difference`. -/
theorem HookSecrets.difference_cons (kv : String × String) (t B : HookSecrets) :
    HookSecrets.difference (kv :: t) B =
      if B.hasKey kv.1 then t.difference B else kv :: t.difference B := by
  cases hB : B.hasKey kv.1 <;>
    simp [HookSecrets.difference, List.filter_cons, hB]

/-- Peeling one entry off the first argument of `intersection`. -/
theorem HookSecrets.intersection_cons (kv : String × String) (t B : HookSecrets) :
    HookSecrets.intersection (kv :: t) B =
      if B.hasKey kv.1 then kv :: t.intersection B else t.intersection B := by
  cases hB : B.hasKey kv.1 <;>
    simp [HookSecrets.intersection, List.filter_cons, hB]

/-- Every entry of a mapping makes `hasKey` true at its key. -/
theorem HookSecrets.hasKey_of_mem {s : HookSecrets} {kv : String × String}
    (h : kv ∈ s) : s.hasKey kv.1 = true := by
  induction s with
  | nil => cases h
  | cons a t ih =>
    rcases List.mem_cons.mp h with h1 | h2
    · rw [h1]; simp [HookSecrets.hasKey]
    · simp [HookSecrets.hasKey, ih h2]

/-- Key membership in a difference. -/
theorem HookSecrets.hasKey_difference (A B : HookSecrets) (k : String) :
    (A.difference B).hasKey k = (A.hasKey k && !(B.hasKey k)) := by
  induction A with
  | nil => rfl
  | cons kv t ih =>
    rw [HookSecrets.difference_cons]
    by_cases hk : kv.1 = k
    · subst hk
      cases hB : B.hasKey kv.1 <;> simp [HookSecrets.hasKey, hB, ih]
    · have hbk : (kv.1 == k) = false := beq_eq_false_iff_ne.mpr hk
      cases hB : B.hasKey kv.1 <;> simp [HookSecrets.hasKey, hB, hbk, ih]

/-- Key membership in an intersection. -/
theorem HookSecrets.hasKey_intersection (A B : HookSecrets) (k : String) :
    (A.intersection B).hasKey k = (A.hasKey k && B.hasKey k) := by
  induction A with
  | nil => rfl
  | cons kv t ih =>
    rw [HookSecrets.intersection_cons]
    by_cases hk : kv.1 = k
    · subst hk
      cases hB : B.hasKey kv.1 <;> simp [HookSecrets.hasKey, hB, ih]
    · have hbk : (kv.1 == k) = false := beq_eq_false_iff_ne.mpr hk
      cases hB : B.hasKey kv.1 <;> simp [HookSecrets.hasKey, hB, hbk, ih]

/-- Values of a difference are taken from the first argument. -/
theorem HookSecrets.lookup_difference (A B : HookSecrets) (k : String)
    (h : B.hasKey k = false) :
    (A.difference B).lookup k = A.lookup k := by
  induction A with
  | nil => rfl
  | cons kv t ih =>
    rw [HookSecrets.difference_cons]
    by_cases hk : kv.1 = k
    · subst hk
      rw [h]
      simp [HookSecrets.lookup]
    · cases hB : B.hasKey kv.1 <;> simp [HookSecrets.lookup, hB, hk, ih]

/-- Values of an intersection are taken from the first argument. -/
theorem HookSecrets.lookup_intersection (A B : HookSecrets) (k : String)
    (h : B.hasKey k = true) :
    (A.intersection B).lookup k = A.lookup k := by
  induction A with
  | nil => rfl
  | cons kv t ih =>
    rw [HookSecrets.intersection_cons]
    by_cases hk : kv.1 = k
    · subst hk
      rw [h]
      simp [HookSecrets.lookup]
    · cases hB : B.hasKey kv.1 <;> simp [HookSecrets.lookup, hB, hk, ih]

/-- Claim C1: for every pair of `HookSecrets` mappings `A` and `B` and every
key `k`, `k` is a key of `difference(A, B)` iff `k` is a key of `A` and not a
key of `B`, and for every such `k` the value of `difference(A, B)` at `k`
equals the value of `A` at `k`. -/
theorem hookSecrets_difference_correct (A B : HookSecrets) (k : String) :
    ((A.difference B).hasKey k = true ↔
      (A.hasKey k = true ∧ B.hasKey k = false)) ∧
    ((A.difference B).hasKey k = true →
      (A.difference B).lookup k = A.lookup k) := by
  constructor
  · rw [HookSecrets.hasKey_difference]
    cases hA : A.hasKey k <;> cases hB : B.hasKey k <;> simp
  · intro h
    rw [HookSecrets.hasKey_difference] at h
    have hB : B.hasKey k = false := by
      cases hB : B.hasKey k
      · rfl
      · rw [hB] at h; simp at h
    exact HookSecrets.lookup_difference A B k hB

/-- Witness for C1 at a concrete input. -/
theorem hookSecrets_difference_correct_witness :
    HookSecrets.lookup
        (HookSecrets.difference [("foo", "v1"), ("bar", "v2")] [("bar", "v3")])
        "foo" =
      HookSecrets.lookup [("foo", "v1"), ("bar", "v2")] "foo" :=
  (hookSecrets_difference_correct [("foo", "v1"), ("bar", "v2")]
      [("bar", "v3")] "foo").2 (by decide)

/-- Claim C2: for every pair of `HookSecrets` mappings `A` and `B` and every
key `k`, `k` is a key of `intersection(A, B)` iff `k` is a key of both `A`
and `B`, and for every such `k` the value of `intersection(A, B)` at `k`
equals the value of `A` at `k`. -/
theorem hookSecrets_intersection_correct (A B : HookSecrets) (k : String) :
    ((A.intersection B).hasKey k = true ↔
      (A.hasKey k = true ∧ B.hasKey k = true)) ∧
    ((A.intersection B).hasKey k = true →
      (A.intersection B).lookup k = A.lookup k) := by
  constructor
  · rw [HookSecrets.hasKey_intersection]
    cases hA : A.hasKey k <;> cases hB : B.hasKey k <;> simp
  · intro h
    rw [HookSecrets.hasKey_intersection] at h
    have hB : B.hasKey k = true := by
      cases hB : B.hasKey k
      · rw [hB] at h; simp at h
      · rfl
    exact HookSecrets.lookup_intersection A B k hB

/-- Witness for C2 at a concrete input. -/
theorem hookSecrets_intersection_correct_witness :
    HookSecrets.lookup
        (HookSecrets.intersection [("foo", "v1"), ("bar", "v2")] [("bar", "v3")])
        "bar" =
      HookSecrets.lookup [("foo", "v1"), ("bar", "v2")] "bar" :=
  (hookSecrets_intersection_correct [("foo", "v1"), ("bar", "v2")]
      [("bar", "v3")] "bar").2 (by decide)

/-- Claim C3: for every `HookSecrets` mapping `A`,
`intersection(A, A) = A` and `difference(A, A) = {}`. -/
theorem hookSecrets_self_ops (A : HookSecrets) :
    A.intersection A = A ∧ A.difference A = HookSecrets.empty := by
  constructor
  · exact List.filter_eq_self.mpr (fun kv h => HookSecrets.hasKey_of_mem h)
  · show A.filter _ = ([] : List (String × String))
    refine List.filter_eq_nil_iff.mpr (fun kv h => ?_)
    simp [HookSecrets.hasKey_of_mem h]

/-- Claim C4: for every pair of `HookSecrets` mappings `A` and `B` sharing no
key (in particular `B = {}`), `intersection(A, B) = {}` and
`difference(A, B) = A`. -/
theorem hookSecrets_disjoint_ops (A B : HookSecrets)
    (h : ∀ k, A.hasKey k = true → B.hasKey k = false) :
    A.intersection B = HookSecrets.empty ∧ A.difference B = A := by
  constructor
  · show A.filter _ = ([] : List (String × String))
    refine List.filter_eq_nil_iff.mpr (fun kv hm => ?_)
    simp [h kv.1 (HookSecrets.hasKey_of_mem hm)]
  · refine List.filter_eq_self.mpr (fun kv hm => ?_)
    simp [h kv.1 (HookSecrets.hasKey_of_mem hm)]

/-- Witness for C4: the particular case `B = {}` at a concrete `A`. -/
theorem hookSecrets_disjoint_ops_witness :
    HookSecrets.intersection [("foo", "v1")] HookSecrets.empty =
        HookSecrets.empty ∧
    HookSecrets.difference [("foo", "v1")] HookSecrets.empty =
        [("foo", "v1")] :=
  hookSecrets_disjoint_ops [("foo", "v1")] HookSecrets.empty
    (fun _ _ => rfl)

/-- Claim C5: with the second argument held fixed, each operation is a fixed
point on its own output: `difference(difference(A, B), B) = difference(A, B)`
and `intersection(intersection(A, B), B) = intersection(A, B)`. -/
theorem hookSecrets_reapply_fixed_point (A B : HookSecrets) :
    (A.difference B).difference B = A.difference B ∧
    (A.intersection B).intersection B = A.intersection B := by
  constructor
  · exact List.filter_eq_self.mpr (fun kv hm => (List.mem_filter.mp hm).2)
  · exact List.filter_eq_self.mpr (fun kv hm => (List.mem_filter.mp hm).2)

/-- Claim C6: `difference` and `intersection` are total functions on pairs of
`HookSecrets` mappings — both are defined here by structural recursion over
finite association lists, hence terminate on every input with no failure
mode — and an empty first argument yields an empty result. -/
theorem hookSecrets_total_empty (B : HookSecrets) :
    HookSecrets.empty.difference B = HookSecrets.empty ∧
    HookSecrets.empty.intersection B = HookSecrets.empty :=
  ⟨rfl, rfl⟩

/-!
Part 2: the Guardian managers of `management/guardian.go`.  Each exported
method of `EnrollmentManager`, `MultiFactorManager` and the per-factor
managers is embedded as a constructor of `GuardianCall`; `requests` lists
the HTTP requests the method body issues (each body contains exactly one
`m.Request` call, respectively one `m.NewRequest`/`m.Do` pair).
-/

structure CreateEnrollmentTicket where
  UserID : String
  Email : String
  SendMail : Bool

structure EnrollmentTicket where
  TicketID : String
  TicketURL : String

/-- The zero value of `EnrollmentTicket` (`EnrollmentTicket{}` in Go). -/
def EnrollmentTicket.zero : EnrollmentTicket := ⟨"", ""⟩

structure MultiFactor where
  Enabled : Option Bool
  Name : Option String
  TrialExpired : Option Bool

abbrev MultiFactorPolicies := List String

structure MultiFactorProvider where
  Provider : Option String

structure PhoneMessageTypes where
  MessageTypes : Option (List String)

structure MultiFactorSMSTemplate where
  EnrollmentMessage : Option String
  VerificationMessage : Option String

structure MultiFactorProviderAmazonSNS where
  AccessKeyID : Option String
  SecretAccessKeyID : Option String
  Region : Option String
  APNSPlatformApplicationARN : Option String
  GCMPlatformApplicationARN : Option String

structure MultiFactorProviderTwilio where
  From : Option String
  MessagingServiceSid : Option String
  AuthToken : Option String
  SID : Option String

structure MultiFactorDUOSettings where
  Hostname : Option String
  IntegrationKey : Option String
  SecretKey : Option String

structure MultiFactorWebAuthnSettings where
  OverrideRelyingParty : Option Bool
  RelyingPartyIdentifier : Option String
  UserVerification : Option String

/-- The JSON payload a Guardian method sends with its request (the value the
method passes to `m.Request` / `m.NewRequest`); `empty` when the method
sends no body (`nil`, or a plain GET whose third argument is only the decode
target). -/
inductive Payload
  | empty
  | createEnrollmentTicket (t : CreateEnrollmentTicket)
  | multiFactor (mf : MultiFactor)
  | policies (p : MultiFactorPolicies)
  | provider (p : MultiFactorProvider)
  | phoneMessageTypes (mt : PhoneMessageTypes)
  | smsTemplate (t : MultiFactorSMSTemplate)
  | twilio (t : MultiFactorProviderTwilio)
  | amazonSNS (s : MultiFactorProviderAmazonSNS)
  | duoSettings (s : MultiFactorDUOSettings)
  | webAuthnSettings (s : MultiFactorWebAuthnSettings)

/-- One HTTP request: the wire method (a Go string such as `"PUT"`), the URL
path segments the Go code passes to `m.URI`, and the request payload. -/
structure HTTPRequest where
  verb : String
  path : List String
  payload : Payload

/-- The typed structure into which a Guardian method deserializes the
response body (the type of the target it hands to the shared `Request`
helper, or of the `json.Decode` target in `CreateTicket`); `unit` when the
method passes `nil` and decodes nothing (`Delete`). -/
inductive RType
  | enrollmentTicket
  | enrollment
  | multiFactor
  | multiFactorList
  | multiFactorPolicies
  | multiFactorProvider
  | phoneMessageTypes
  | smsTemplate
  | twilio
  | amazonSNS
  | duoSettings
  | webAuthnSettings
  | unit

/-- The exported Guardian manager methods of `management/guardian.go`. -/
inductive MethodName
  | createTicket
  | enrollmentGet
  | enrollmentDelete
  | mfList
  | mfPolicy
  | mfUpdatePolicy
  | phoneEnable
  | phoneProvider
  | phoneUpdateProvider
  | phoneMessageTypes
  | phoneUpdateMessageTypes
  | smsEnable
  | smsTemplate
  | smsUpdateTemplate
  | smsTwilio
  | smsUpdateTwilio
  | pushEnable
  | pushAmazonSNS
  | pushUpdateAmazonSNS
  | emailEnable
  | duoEnable
  | duoRead
  | duoUpdate
  | webAuthnRoamingEnable
  | webAuthnRoamingRead
  | webAuthnRoamingUpdate
  | webAuthnPlatformEnable
  | webAuthnPlatformRead
  | webAuthnPlatformUpdate
  | otpEnable

/-- One invocation of an exported Guardian manager method, with the
arguments the method takes (request options are forwarded untouched by every
method and do not influence verb, path or payload, so they do not appear). -/
inductive GuardianCall
  | createTicket (t : CreateEnrollmentTicket)
  | enrollmentGet (id : String)
  | enrollmentDelete (id : String)
  | mfList
  | mfPolicy
  | mfUpdatePolicy (p : MultiFactorPolicies)
  | phoneEnable (enabled : Bool)
  | phoneProvider
  | phoneUpdateProvider (p : MultiFactorProvider)
  | phoneMessageTypes
  | phoneUpdateMessageTypes (mt : PhoneMessageTypes)
  | smsEnable (enabled : Bool)
  | smsTemplate
  | smsUpdateTemplate (t : MultiFactorSMSTemplate)
  | smsTwilio
  | smsUpdateTwilio (t : MultiFactorProviderTwilio)
  | pushEnable (enabled : Bool)
  | pushAmazonSNS
  | pushUpdateAmazonSNS (s : MultiFactorProviderAmazonSNS)
  | emailEnable (enabled : Bool)
  | duoEnable (enabled : Bool)
  | duoRead
  | duoUpdate (s : MultiFactorDUOSettings)
  | webAuthnRoamingEnable (enabled : Bool)
  | webAuthnRoamingRead
  | webAuthnRoamingUpdate (s : MultiFactorWebAuthnSettings)
  | webAuthnPlatformEnable (enabled : Bool)
  | webAuthnPlatformRead
  | webAuthnPlatformUpdate (s : MultiFactorWebAuthnSettings)
  | otpEnable (enabled : Bool)

/-- The method a call invokes. -/
def nameOf : GuardianCall → MethodName
  | .createTicket _ => .createTicket
  | .enrollmentGet _ => .enrollmentGet
  | .enrollmentDelete _ => .enrollmentDelete
  | .mfList => .mfList
  | .mfPolicy => .mfPolicy
  | .mfUpdatePolicy _ => .mfUpdatePolicy
  | .phoneEnable _ => .phoneEnable
  | .phoneProvider => .phoneProvider
  | .phoneUpdateProvider _ => .phoneUpdateProvider
  | .phoneMessageTypes => .phoneMessageTypes
  | .phoneUpdateMessageTypes _ => .phoneUpdateMessageTypes
  | .smsEnable _ => .smsEnable
  | .smsTemplate => .smsTemplate
  | .smsUpdateTemplate _ => .smsUpdateTemplate
  | .smsTwilio => .smsTwilio
  | .smsUpdateTwilio _ => .smsUpdateTwilio
  | .pushEnable _ => .pushEnable
  | .pushAmazonSNS => .pushAmazonSNS
  | .pushUpdateAmazonSNS _ => .pushUpdateAmazonSNS
  | .emailEnable _ => .emailEnable
  | .duoEnable _ => .duoEnable
  | .duoRead => .duoRead
  | .duoUpdate _ => .duoUpdate
  | .webAuthnRoamingEnable _ => .webAuthnRoamingEnable
  | .webAuthnRoamingRead => .webAuthnRoamingRead
  | .webAuthnRoamingUpdate _ => .webAuthnRoamingUpdate
  | .webAuthnPlatformEnable _ => .webAuthnPlatformEnable
  | .webAuthnPlatformRead => .webAuthnPlatformRead
  | .webAuthnPlatformUpdate _ => .webAuthnPlatformUpdate
  | .otpEnable _ => .otpEnable

/-- The HTTP requests a method body issues, translated body by body from
`management/guardian.go`: every body calls the shared request helper exactly
once, so every branch is a one-element list.  `m.URI(segs...)` is recorded
as the list of its segments.  `MultiFactorPhone.Enable` deliberately targets
the `sms` path (see the comment in its body). -/
def requests : GuardianCall → List HTTPRequest
  | .createTicket t =>
      [⟨"POST", ["guardian", "enrollments", "ticket"], .createEnrollmentTicket t⟩]
  | .enrollmentGet id => [⟨"GET", ["guardian", "enrollments", id], .empty⟩]
  | .enrollmentDelete id => [⟨"DELETE", ["guardian", "enrollments", id], .empty⟩]
  | .mfList => [⟨"GET", ["guardian", "factors"], .empty⟩]
  | .mfPolicy => [⟨"GET", ["guardian", "policies"], .empty⟩]
  | .mfUpdatePolicy p => [⟨"PUT", ["guardian", "policies"], .policies p⟩]
  | .phoneEnable enabled =>
      [⟨"PUT", ["guardian", "factors", "sms"],
        .multiFactor ⟨some enabled, none, none⟩⟩]
  | .phoneProvider =>
      [⟨"GET", ["guardian", "factors", "phone", "selected-provider"], .empty⟩]
  | .phoneUpdateProvider p =>
      [⟨"PUT", ["guardian", "factors", "phone", "selected-provider"], .provider p⟩]
  | .phoneMessageTypes =>
      [⟨"GET", ["guardian", "factors", "phone", "message-types"], .empty⟩]
  | .phoneUpdateMessageTypes mt =>
      [⟨"PUT", ["guardian", "factors", "phone", "message-types"],
        .phoneMessageTypes mt⟩]
  | .smsEnable enabled =>
      [⟨"PUT", ["guardian", "factors", "sms"],
        .multiFactor ⟨some enabled, none, none⟩⟩]
  | .smsTemplate =>
      [⟨"GET", ["guardian", "factors", "sms", "templates"], .empty⟩]
  | .smsUpdateTemplate t =>
      [⟨"PUT", ["guardian", "factors", "sms", "templates"], .smsTemplate t⟩]
  | .smsTwilio =>
      [⟨"GET", ["guardian", "factors", "sms", "providers", "twilio"], .empty⟩]
  | .smsUpdateTwilio t =>
      [⟨"PUT", ["guardian", "factors", "sms", "providers", "twilio"], .twilio t⟩]
  | .pushEnable enabled =>
      [⟨"PUT", ["guardian", "factors", "push-notification"],
        .multiFactor ⟨some enabled, none, none⟩⟩]
  | .pushAmazonSNS =>
      [⟨"GET", ["guardian", "factors", "push-notification", "providers", "sns"],
        .empty⟩]
  | .pushUpdateAmazonSNS s =>
      [⟨"PUT", ["guardian", "factors", "push-notification", "providers", "sns"],
        .amazonSNS s⟩]
  | .emailEnable enabled =>
      [⟨"PUT", ["guardian", "factors", "email"],
        .multiFactor ⟨some enabled, none, none⟩⟩]
  | .duoEnable enabled =>
      [⟨"PUT", ["guardian", "factors", "duo"],
        .multiFactor ⟨some enabled, none, none⟩⟩]
  | .duoRead => [⟨"GET", ["guardian", "factors", "duo", "settings"], .empty⟩]
  | .duoUpdate s =>
      [⟨"PUT", ["guardian", "factors", "duo", "settings"], .duoSettings s⟩]
  | .webAuthnRoamingEnable enabled =>
      [⟨"PUT", ["guardian", "factors", "webauthn-roaming"],
        .multiFactor ⟨some enabled, none, none⟩⟩]
  | .webAuthnRoamingRead =>
      [⟨"GET", ["guardian", "factors", "webauthn-roaming", "settings"], .empty⟩]
  | .webAuthnRoamingUpdate s =>
      [⟨"PUT", ["guardian", "factors", "webauthn-roaming", "settings"],
        .webAuthnSettings s⟩]
  | .webAuthnPlatformEnable enabled =>
      [⟨"PUT", ["guardian", "factors", "webauthn-platform"],
        .multiFactor ⟨some enabled, none, none⟩⟩]
  | .webAuthnPlatformRead =>
      [⟨"GET", ["guardian", "factors", "webauthn-platform", "settings"], .empty⟩]
  | .webAuthnPlatformUpdate s =>
      [⟨"PUT", ["guardian", "factors", "webauthn-platform", "settings"],
        .webAuthnSettings s⟩]
  | .otpEnable enabled =>
      [⟨"PUT", ["guardian", "factors", "otp"],
        .multiFactor ⟨some enabled, none, none⟩⟩]

/-- The fixed wire method of each Guardian manager method. -/
def verbOf : MethodName → String
  | .createTicket => "POST"
  | .enrollmentGet => "GET"
  | .enrollmentDelete => "DELETE"
  | .mfList => "GET"
  | .mfPolicy => "GET"
  | .mfUpdatePolicy => "PUT"
  | .phoneEnable => "PUT"
  | .phoneProvider => "GET"
  | .phoneUpdateProvider => "PUT"
  | .phoneMessageTypes => "GET"
  | .phoneUpdateMessageTypes => "PUT"
  | .smsEnable => "PUT"
  | .smsTemplate => "GET"
  | .smsUpdateTemplate => "PUT"
  | .smsTwilio => "GET"
  | .smsUpdateTwilio => "PUT"
  | .pushEnable => "PUT"
  | .pushAmazonSNS => "GET"
  | .pushUpdateAmazonSNS => "PUT"
  | .emailEnable => "PUT"
  | .duoEnable => "PUT"
  | .duoRead => "GET"
  | .duoUpdate => "PUT"
  | .webAuthnRoamingEnable => "PUT"
  | .webAuthnRoamingRead => "GET"
  | .webAuthnRoamingUpdate => "PUT"
  | .webAuthnPlatformEnable => "PUT"
  | .webAuthnPlatformRead => "GET"
  | .webAuthnPlatformUpdate => "PUT"
  | .otpEnable => "PUT"

/-- One segment of a URL template: a literal, or the hole filled by the
method's id argument. -/
inductive Seg
  | lit (s : String)
  | param

/-- Fills the parameter holes of a template with a call's arguments, in
order. -/
def instantiate : List Seg → List String → List String
  | [], _ => []
  | Seg.lit s :: t, args => s :: instantiate t args
  | Seg.param :: t, [] => instantiate t []
  | Seg.param :: t, a :: args => a :: instantiate t args

/-- The fixed URL template of each Guardian manager method (`param` marks
the position of the enrollment id). -/
def urlTemplate : MethodName → List Seg
  | .createTicket => [.lit "guardian", .lit "enrollments", .lit "ticket"]
  | .enrollmentGet => [.lit "guardian", .lit "enrollments", .param]
  | .enrollmentDelete => [.lit "guardian", .lit "enrollments", .param]
  | .mfList => [.lit "guardian", .lit "factors"]
  | .mfPolicy => [.lit "guardian", .lit "policies"]
  | .mfUpdatePolicy => [.lit "guardian", .lit "policies"]
  | .phoneEnable => [.lit "guardian", .lit "factors", .lit "sms"]
  | .phoneProvider =>
      [.lit "guardian", .lit "factors", .lit "phone", .lit "selected-provider"]
  | .phoneUpdateProvider =>
      [.lit "guardian", .lit "factors", .lit "phone", .lit "selected-provider"]
  | .phoneMessageTypes =>
      [.lit "guardian", .lit "factors", .lit "phone", .lit "message-types"]
  | .phoneUpdateMessageTypes =>
      [.lit "guardian", .lit "factors", .lit "phone", .lit "message-types"]
  | .smsEnable => [.lit "guardian", .lit "factors", .lit "sms"]
  | .smsTemplate => [.lit "guardian", .lit "factors", .lit "sms", .lit "templates"]
  | .smsUpdateTemplate =>
      [.lit "guardian", .lit "factors", .lit "sms", .lit "templates"]
  | .smsTwilio =>
      [.lit "guardian", .lit "factors", .lit "sms", .lit "providers", .lit "twilio"]
  | .smsUpdateTwilio =>
      [.lit "guardian", .lit "factors", .lit "sms", .lit "providers", .lit "twilio"]
  | .pushEnable => [.lit "guardian", .lit "factors", .lit "push-notification"]
  | .pushAmazonSNS =>
      [.lit "guardian", .lit "factors", .lit "push-notification", .lit "providers",
        .lit "sns"]
  | .pushUpdateAmazonSNS =>
      [.lit "guardian", .lit "factors", .lit "push-notification", .lit "providers",
        .lit "sns"]
  | .emailEnable => [.lit "guardian", .lit "factors", .lit "email"]
  | .duoEnable => [.lit "guardian", .lit "factors", .lit "duo"]
  | .duoRead => [.lit "guardian", .lit "factors", .lit "duo", .lit "settings"]
  | .duoUpdate => [.lit "guardian", .lit "factors", .lit "duo", .lit "settings"]
  | .webAuthnRoamingEnable =>
      [.lit "guardian", .lit "factors", .lit "webauthn-roaming"]
  | .webAuthnRoamingRead =>
      [.lit "guardian", .lit "factors", .lit "webauthn-roaming", .lit "settings"]
  | .webAuthnRoamingUpdate =>
      [.lit "guardian", .lit "factors", .lit "webauthn-roaming", .lit "settings"]
  | .webAuthnPlatformEnable =>
      [.lit "guardian", .lit "factors", .lit "webauthn-platform"]
  | .webAuthnPlatformRead =>
      [.lit "guardian", .lit "factors", .lit "webauthn-platform", .lit "settings"]
  | .webAuthnPlatformUpdate =>
      [.lit "guardian", .lit "factors", .lit "webauthn-platform", .lit "settings"]
  | .otpEnable => [.lit "guardian", .lit "factors", .lit "otp"]

/-- The arguments of a call that fill its URL template's parameter holes
(only the enrollment id methods have one). -/
def urlArgs : GuardianCall → List String
  | .enrollmentGet id => [id]
  | .enrollmentDelete id => [id]
  | _ => []

/-- The typed structure each call hands to the decoding step, read off the
Go method's signature and the value it passes to the request helper. -/
def decodeTarget : GuardianCall → RType
  | .createTicket _ => .enrollmentTicket
  | .enrollmentGet _ => .enrollment
  | .enrollmentDelete _ => .unit
  | .mfList => .multiFactorList
  | .mfPolicy => .multiFactorPolicies
  | .mfUpdatePolicy _ => .multiFactorPolicies
  | .phoneEnable _ => .multiFactor
  | .phoneProvider => .multiFactorProvider
  | .phoneUpdateProvider _ => .multiFactorProvider
  | .phoneMessageTypes => .phoneMessageTypes
  | .phoneUpdateMessageTypes _ => .phoneMessageTypes
  | .smsEnable _ => .multiFactor
  | .smsTemplate => .smsTemplate
  | .smsUpdateTemplate _ => .smsTemplate
  | .smsTwilio => .twilio
  | .smsUpdateTwilio _ => .twilio
  | .pushEnable _ => .multiFactor
  | .pushAmazonSNS => .amazonSNS
  | .pushUpdateAmazonSNS _ => .amazonSNS
  | .emailEnable _ => .multiFactor
  | .duoEnable _ => .multiFactor
  | .duoRead => .duoSettings
  | .duoUpdate _ => .duoSettings
  | .webAuthnRoamingEnable _ => .multiFactor
  | .webAuthnRoamingRead => .webAuthnSettings
  | .webAuthnRoamingUpdate _ => .webAuthnSettings
  | .webAuthnPlatformEnable _ => .multiFactor
  | .webAuthnPlatformRead => .webAuthnSettings
  | .webAuthnPlatformUpdate _ => .webAuthnSettings
  | .otpEnable _ => .multiFactor

/-- The fixed typed result structure of each method, independent of the
call's arguments. -/
def fixedDecode : MethodName → RType
  | .createTicket => .enrollmentTicket
  | .enrollmentGet => .enrollment
  | .enrollmentDelete => .unit
  | .mfList => .multiFactorList
  | .mfPolicy => .multiFactorPolicies
  | .mfUpdatePolicy => .multiFactorPolicies
  | .phoneEnable => .multiFactor
  | .phoneProvider => .multiFactorProvider
  | .phoneUpdateProvider => .multiFactorProvider
  | .phoneMessageTypes => .phoneMessageTypes
  | .phoneUpdateMessageTypes => .phoneMessageTypes
  | .smsEnable => .multiFactor
  | .smsTemplate => .smsTemplate
  | .smsUpdateTemplate => .smsTemplate
  | .smsTwilio => .twilio
  | .smsUpdateTwilio => .twilio
  | .pushEnable => .multiFactor
  | .pushAmazonSNS => .amazonSNS
  | .pushUpdateAmazonSNS => .amazonSNS
  | .emailEnable => .multiFactor
  | .duoEnable => .multiFactor
  | .duoRead => .duoSettings
  | .duoUpdate => .duoSettings
  | .webAuthnRoamingEnable => .multiFactor
  | .webAuthnRoamingRead => .webAuthnSettings
  | .webAuthnRoamingUpdate => .webAuthnSettings
  | .webAuthnPlatformEnable => .multiFactor
  | .webAuthnPlatformRead => .webAuthnSettings
  | .webAuthnPlatformUpdate => .webAuthnSettings
  | .otpEnable => .multiFactor

/-- Claim C8: every exported Guardian manager method issues exactly one HTTP
request per invocation; its wire method is one of GET, POST, PUT, DELETE and
is fixed per method; its URL is the method's fixed URL template instantiated
with the call's id argument; and the response body is deserialized into the
method's fixed typed result structure (the decoding itself is performed by
the shared `Request` helper of `management.go`, which is modelled from the
spec as deserializing into the typed target each method passes). -/
theorem guardian_single_fixed_request (c : GuardianCall) :
    (requests c).length = 1 ∧
    ((requests c).all fun r =>
      (["GET", "POST", "PUT", "DELETE"] : List String).contains r.verb) = true ∧
    ((requests c).all fun r => r.verb == verbOf (nameOf c)) = true ∧
    (requests c).map HTTPRequest.path =
      [instantiate (urlTemplate (nameOf c)) (urlArgs c)] ∧
    decodeTarget c = fixedDecode (nameOf c) := by
  cases c <;> exact ⟨rfl, rfl, rfl, rfl, rfl⟩

/-- Claim C10: for every boolean, `MultiFactorPhone.Enable` issues exactly
the same request as `MultiFactorSMS.Enable` — a PUT to the SMS factor path
`guardian/factors/sms` with a `MultiFactor` payload whose only populated
field is `Enabled` — so enabling or disabling the Phone factor is
indistinguishable from enabling or disabling the SMS factor. -/
theorem phoneEnable_matches_smsEnable (enabled : Bool) :
    requests (GuardianCall.phoneEnable enabled) =
      requests (GuardianCall.smsEnable enabled) ∧
    requests (GuardianCall.phoneEnable enabled) =
      [⟨"PUT", ["guardian", "factors", "sms"],
        Payload.multiFactor ⟨some enabled, none, none⟩⟩] :=
  ⟨rfl, rfl⟩

/-- Modelled from the spec: the error value built by `newError` of
`management.go` (not among the sources at hand) for a non-OK response; it
wraps the response body. -/
structure ApiError where
  body : String

/-- Builds the error value from a response body (`newError(res.Body)`). -/
def newError (body : String) : ApiError := ⟨body⟩

/-- An HTTP response as `CreateTicket` observes it: status code and body. -/
structure HTTPResponse where
  statusCode : Nat
  body : String

/-- `EnrollmentManager.CreateTicket`, translated from
`management/guardian.go`: the outcomes of its three effectful steps —
`m.NewRequest`, `m.Do`, and the JSON decoding of the body (which, as in Go,
yields both a value and an optional error) — are passed in as arguments; the
control flow around them is the source's. -/
def createTicketRun
    (newRequest : Except ApiError Unit)
    (doRequest : Except ApiError HTTPResponse)
    (decodeTicket : String → EnrollmentTicket × Option ApiError) :
    EnrollmentTicket × Option ApiError :=
  match newRequest with
  | .error e => (EnrollmentTicket.zero, some e)
  | .ok _ =>
    match doRequest with
    | .error e => (EnrollmentTicket.zero, some e)
    | .ok res =>
      if res.statusCode ≠ 200 then
        (EnrollmentTicket.zero, some (newError res.body))
      else decodeTicket res.body

/-- Claim C9: `CreateTicket` returns the zero-valued `EnrollmentTicket`
together with a non-nil error whenever request construction fails, the HTTP
call fails, or the response status differs from 200 OK; it decodes the
response body into an `EnrollmentTicket` only when the status is exactly
200. -/
theorem createTicket_error_handling
    (nr : Except ApiError Unit) (dr : Except ApiError HTTPResponse)
    (dec : String → EnrollmentTicket × Option ApiError) :
    (∀ e, nr = .error e →
      createTicketRun nr dr dec = (EnrollmentTicket.zero, some e)) ∧
    (∀ e, nr = .ok () → dr = .error e →
      createTicketRun nr dr dec = (EnrollmentTicket.zero, some e)) ∧
    (∀ res, nr = .ok () → dr = .ok res → res.statusCode ≠ 200 →
      createTicketRun nr dr dec =
        (EnrollmentTicket.zero, some (newError res.body))) ∧
    (∀ res, nr = .ok () → dr = .ok res → res.statusCode = 200 →
      createTicketRun nr dr dec = dec res.body) := by
  refine ⟨?_, ?_, ?_, ?_⟩
  · intro e he
    subst he
    rfl
  · intro e h1 h2
    subst h1
    subst h2
    rfl
  · intro res h1 h2 h3
    subst h1
    subst h2
    simp [createTicketRun, h3]
  · intro res h1 h2 h3
    subst h1
    subst h2
    simp [createTicketRun, h3]

/-- Witness for C9 at concrete step outcomes (response status 404). -/
theorem createTicket_error_handling_witness :
    createTicketRun (Except.ok ()) (Except.ok ⟨404, "boom"⟩)
        (fun _ => (EnrollmentTicket.zero, none)) =
      (EnrollmentTicket.zero, some (newError "boom")) :=
  (createTicket_error_handling (Except.ok ()) (Except.ok ⟨404, "boom"⟩)
      (fun _ => (EnrollmentTicket.zero, none))).2.2.1
    ⟨404, "boom"⟩ rfl rfl (by decide)
